import Mathlib

/-!
Shallow embedding of the go-bank-api HTTP service: the account entity and
request types (types.go / part_000), the Postgres-backed storage gateway
(the storage portion of api.go), and the HTTP handlers, JWT middleware and
error adapter (part_001 / api.go).

Modelling conventions:
- JSON values are an inductive `Json`; Go's `encoding/json` struct
  marshalling (driven by the struct tags in the source) is embedded as
  explicit `toJson` functions, and `json.Decoder.Decode` into a request
  struct as explicit decode functions.
- The SQL backend is external: persisted rows are a `Store` (list of rows
  plus the next SERIAL identity), and operations that issue queries take an
  oracle `dbErr : Option String` standing for the backend's failure mode
  (`none` = the query succeeds).
- `math/rand.Intn n` is modelled as a function of an explicit seed whose
  result lies in `[0, n)`, as the Go function guarantees.
- `time.Now` is an explicit `now : Nat` parameter; the serialized form of a
  timestamp is abstracted to that numeric instant.
- The golang-jwt library is external: a token string is modelled by what the
  library extracts from it (`malformed`, or a signed token carrying an
  algorithm name, claims, and the key it was signed with); `jwt.Parse` with
  the source's key function becomes `validateJWT`.
- Go's float64 balance is modelled as `Int`: no operation of the program
  performs any floating-point arithmetic on it (the only value ever
  constructed is the zero value, and the store merely carries it).
-/

namespace GoBank

/-- JSON values, as far as this service produces or consumes them. -/
inductive Json where
  | null : Json
  | str : String → Json
  | num : Int → Json
  | arr : List Json → Json
  | obj : List (String × Json) → Json

/-- Lookup of a key in a JSON object's field list (first occurrence). -/
def jsonLookup : List (String × Json) → String → Option Json
  | [], _ => none
  | (k, v) :: rest, key => if k = key then some v else jsonLookup rest key

/-- Field access on a JSON value: defined only on objects. -/
def Json.field : Json → String → Option Json
  | .obj fields, key => jsonLookup fields key
  | _, _ => none

/-- The Account entity of types.go / part_000 (struct `Account`). -/
structure Account where
  ID : Int
  FirstName : String
  LastName : String
  Number : Int
  Balance : Int
  CreatedAt : Nat
deriving DecidableEq, Repr

/-- Go JSON marshalling of `Account` per its struct tags. -/
def Account.toJson (a : Account) : Json :=
  .obj [("id", .num a.ID), ("first_name", .str a.FirstName),
        ("last_name", .str a.LastName), ("number", .num a.Number),
        ("balance", .num a.Balance), ("created_at", .num (a.CreatedAt : Nat))]

/-- The create-account request body (struct `CreateAccountRequest`). -/
structure CreateAccountRequest where
  FirstName : String
  LastName : String
deriving DecidableEq, Repr

/-- The transfer request body (struct `TransferRequest`). -/
structure TransferRequest where
  ToAccount : Int
  Amount : Int
deriving DecidableEq, Repr

/-- Go JSON marshalling of `TransferRequest` per its struct tags. -/
def TransferRequest.toJson (t : TransferRequest) : Json :=
  .obj [("to_account", .num t.ToAccount), ("amount", .num t.Amount)]

/-- The API error body (struct `APIError`): both tagged fields, `error` and
the never-assigned `code`, are marshalled. -/
structure APIError where
  Error : String
  Code : Int
deriving DecidableEq, Repr

/-- Go JSON marshalling of `APIError` per its struct tags. -/
def APIError.toJson (e : APIError) : Json :=
  .obj [("error", .str e.Error), ("code", .num e.Code)]

/-- Models `math/rand.Intn`: a pseudo-random integer in `[0, n)`, as a
function of an explicit generator state `seed`. -/
def randIntn (seed n : Nat) : Nat := seed % n

/-- `NewAccount` of types.go / part_000: names from the request, a random
number below 1000000, and zero values for `ID` and `Balance`. -/
def NewAccount (FirstName LastName : String) (seed now : Nat) : Account :=
  { ID := 0
    FirstName := FirstName
    LastName := LastName
    Number := (randIntn seed 1000000 : Nat)
    Balance := 0
    CreatedAt := now }

/-! ## Request body decoding (encoding/json, as used by the handlers) -/

/-- Decoding one string-typed struct field from a JSON object: an absent
field leaves the zero value `""`; a present field of the wrong JSON type is
a decode error, as in encoding/json. -/
def strField (fields : List (String × Json)) (key : String) : Except String String :=
  match jsonLookup fields key with
  | none => .ok ""
  | some (.str s) => .ok s
  | some _ => .error ("json: cannot unmarshal into string field " ++ key)

/-- Decoding one integer-typed struct field from a JSON object, with the
same conventions as `strField`. -/
def intField (fields : List (String × Json)) (key : String) : Except String Int :=
  match jsonLookup fields key with
  | none => .ok 0
  | some (.num n) => .ok n
  | some _ => .error ("json: cannot unmarshal into int field " ++ key)

/-- `json.Decoder.Decode` into a `CreateAccountRequest`: JSON null leaves
the zero struct, an object fills the tagged fields, anything else fails. -/
def decodeCreateAccountRequest : Json → Except String CreateAccountRequest
  | .null => .ok { FirstName := "", LastName := "" }
  | .obj fields =>
    match strField fields "first_name", strField fields "last_name" with
    | .ok fn, .ok ln => .ok { FirstName := fn, LastName := ln }
    | .error e, _ => .error e
    | _, .error e => .error e
  | _ => .error "json: cannot unmarshal into CreateAccountRequest"

/-- `json.Decoder.Decode` into a `TransferRequest`. -/
def decodeTransferRequest : Json → Except String TransferRequest
  | .null => .ok { ToAccount := 0, Amount := 0 }
  | .obj fields =>
    match intField fields "to_account", intField fields "amount" with
    | .ok toAcc, .ok amt => .ok { ToAccount := toAcc, Amount := amt }
    | .error e, _ => .error e
    | _, .error e => .error e
  | _ => .error "json: cannot unmarshal into TransferRequest"

/-! ## JWT (golang-jwt, as used by createJWT / validateJWT) -/

/-- The claims the service ever issues or reads: an expiry instant (Unix
seconds) and an account number. -/
structure JWTClaims where
  expiresAt : Int
  accountNumber : Int
deriving DecidableEq, Repr

/-- A token string as the JWT library sees it: unparseable, or a signed
token carrying its algorithm name, claims, and the key it was signed
with. -/
inductive TokenString where
  | malformed : TokenString
  | signed (alg : String) (claims : JWTClaims) (key : String) : TokenString
deriving DecidableEq, Repr

/-- Membership test for `jwt.SigningMethodHMAC` (the HMAC family). -/
def isHMAC (alg : String) : Bool :=
  alg = "HS256" || alg = "HS384" || alg = "HS512"

/-- `createJWT` of part_001: claims are the account's number and the fixed
expiry `time.Unix(1516239022, 0)`; the token is signed with HS256 under the
environment secret. Signing with a well-formed HMAC key never fails. -/
def createJWT (secret : String) (account : Account) : Except String TokenString :=
  .ok (.signed "HS256" { expiresAt := 1516239022, accountNumber := account.Number } secret)

/-- `validateJWT` of part_001: `jwt.Parse` with a key function that rejects
any non-HMAC signing method and otherwise supplies the shared secret, so a
token verifies iff it parses, uses an HMAC method, and was signed with the
secret. -/
def validateJWT (secret : String) (tokenString : TokenString) : Except String TokenString :=
  match tokenString with
  | .malformed => .error "token is malformed"
  | .signed alg claims key =>
    if !(isHMAC alg) then .error ("unexpected signing method: " ++ alg)
    else if key ≠ secret then .error "signature is invalid"
    else .ok (.signed alg claims key)

/-- Discriminator for `Except` results. -/
def exceptIsOk {α : Type} : Except String α → Bool
  | .ok _ => true
  | .error _ => false

/-! ## HTTP requests and responses -/

/-- An inbound HTTP request as the handlers consume it: the method, the mux
path variables, the decoded body, and the x-jwt-token header (as the JWT
library reads it; an absent header is a malformed token). -/
structure Request where
  Method : String
  vars : List (String × String)
  Body : Json
  xJwtToken : TokenString

/-- `mux.Vars(r)[key]`: Go map access with the zero value for a missing
key. -/
def varsGet (r : Request) (key : String) : String :=
  match r.vars.find? (fun p => p.1 = key) with
  | some p => p.2
  | none => ""

/-- A written HTTP response: status code and JSON body. -/
structure Response where
  status : Nat
  body : Json

/-- `writeJSON` / `WriteJSON`: writes the status code and the JSON encoding
of the value. -/
def writeJSON (status : Nat) (v : Json) : Response :=
  { status := status, body := v }

/-! ## Storage gateway (the PostgresStore portion of api.go) -/

/-- The persisted state: the rows of the accounts table and the next value
of the SERIAL identity column. -/
structure Store where
  rows : List Account
  nextId : Int
deriving DecidableEq, Repr

namespace PostgresStore

/-- `CreateAccount`: inserts one row carrying every field of the account
except its identity — the row's identity is database-assigned — and
surfaces any insertion error; the in-memory account is not modified. -/
def CreateAccount (st : Store) (account : Account) (dbErr : Option String) :
    Store × Except String Unit :=
  match dbErr with
  | some e => (st, .error e)
  | none =>
    ({ rows := st.rows ++ [{ account with ID := st.nextId }],
       nextId := st.nextId + 1 }, .ok ())

/-- `GetAccounts`: an unfiltered full-table read, decoding every row; the
accumulator starts as an empty (non-nil) slice. -/
def GetAccounts (st : Store) (dbErr : Option String) :
    Store × Except String (List Account) :=
  match dbErr with
  | some e => (st, .error e)
  | none => (st, .ok st.rows)

/-- `GetAccountByID`: unimplemented — returns `nil, nil` for every id and
leaves the store untouched. -/
def GetAccountByID (st : Store) (id : Int) : Store × (Option Account × Option String) :=
  (st, (none, none))

/-- `UpdateAccount`: unimplemented — returns `nil` for every account and
leaves the store untouched. -/
def UpdateAccount (st : Store) (account : Account) : Store × Option String :=
  (st, none)

/-- `DeleteAccount`: unimplemented — returns `nil` for every id and leaves
the store untouched. -/
def DeleteAccount (st : Store) (id : Int) : Store × Option String :=
  (st, none)

end PostgresStore

/-! ## Handlers (part_001 / api.go) -/

/-- `getID`: reads the id path variable and parses it with `strconv.Atoi`;
a segment that is not a decimal integer yields the invalid-id error. -/
def atoiDigits : List Char → Nat → Option Nat
  | [], acc => some acc
  | c :: cs, acc =>
    if h : '0' ≤ c ∧ c ≤ '9' then atoiDigits cs (acc * 10 + (c.toNat - '0'.toNat))
    else none

/-- `strconv.Atoi`: an optional sign followed by at least one decimal
digit. -/
def atoi (s : String) : Option Int :=
  match s.data with
  | [] => none
  | '+' :: [] => none
  | '-' :: [] => none
  | '+' :: cs => (atoiDigits cs 0).map (fun n => (n : Int))
  | '-' :: cs => (atoiDigits cs 0).map (fun n => -(n : Int))
  | cs => (atoiDigits cs 0).map (fun n => (n : Int))

/-- `getID` of part_001 / api.go. -/
def getID (r : Request) : Except String Int :=
  match atoi (varsGet r "id") with
  | some id => .ok id
  | none => .error ("invalid id given " ++ varsGet r "id")

/-- `handleGetAccounts`: full-table read, then a 200 with the JSON array of
accounts. -/
def handleGetAccounts (dbErr : Option String) (st : Store) (r : Request) :
    Store × Except String Response :=
  match PostgresStore.GetAccounts st dbErr with
  | (st', .error e) => (st', .error e)
  | (st', .ok accounts) =>
    (st', .ok (writeJSON 200 (.arr (accounts.map Account.toJson))))

/-- `handleGetAccountByID`: parse the id, fetch (always `nil, nil`), then a
200 with the JSON encoding of the (nil) account. -/
def handleGetAccountByID (st : Store) (r : Request) : Store × Except String Response :=
  match getID r with
  | .error e => (st, .error e)
  | .ok id =>
    match PostgresStore.GetAccountByID st id with
    | (st', (_, some e)) => (st', .error e)
    | (st', (account, none)) =>
      (st', .ok (writeJSON 200 (match account with
        | none => Json.null
        | some a => a.toJson)))

/-- `handleCreateAccount` of part_001: decode the body, build the account,
insert it, issue and log a JWT, then a 201 with the JSON encoding of the
in-memory account (whose identity is still the zero value). -/
def handleCreateAccount (seed now : Nat) (secret : String) (dbErr : Option String)
    (st : Store) (r : Request) : Store × Except String Response :=
  match decodeCreateAccountRequest r.Body with
  | .error e => (st, .error e)
  | .ok req =>
    let account := NewAccount req.FirstName req.LastName seed now
    match PostgresStore.CreateAccount st account dbErr with
    | (st', .error e) => (st', .error e)
    | (st', .ok _) =>
      match createJWT secret account with
      | .error e => (st', .error e)
      | .ok _ => (st', .ok (writeJSON 201 account.toJson))

/-- `handleDeleteAccountByID`: parse the id, delete (a no-op), then a 200
with a success message string. -/
def handleDeleteAccountByID (st : Store) (r : Request) : Store × Except String Response :=
  match getID r with
  | .error e => (st, .error e)
  | .ok id =>
    match PostgresStore.DeleteAccount st id with
    | (st', some e) => (st', .error e)
    | (st', none) => (st', .ok (writeJSON 200 (.str "successfully deleted account")))

/-- `handleTransfer`: decode the body (wrapping decode failures in a
bad-Request message) and echo it back with a 200; no storage call is
made. -/
def handleTransfer (st : Store) (r : Request) : Store × Except String Response :=
  match decodeTransferRequest r.Body with
  | .error e => (st, .error ("bad Request: " ++ e))
  | .ok t => (st, .ok (writeJSON 200 t.toJson))

/-- `handleAccount`: dispatch on the HTTP method for the collection
route. -/
def handleAccount (seed now : Nat) (secret : String) (dbErr : Option String)
    (st : Store) (r : Request) : Store × Except String Response :=
  if r.Method = "GET" then handleGetAccounts dbErr st r
  else if r.Method = "POST" then handleCreateAccount seed now secret dbErr st r
  else (st, .error ("method not allowed: " ++ r.Method))

/-- `handleAccountByID`: dispatch on the HTTP method for the
single-resource route. -/
def handleAccountByID (st : Store) (r : Request) : Store × Except String Response :=
  if r.Method = "GET" then handleGetAccountByID st r
  else if r.Method = "DELETE" then handleDeleteAccountByID st r
  else (st, .error ("method not allowed: " ++ r.Method))

/-- `makeHTTPHandlerFunc` / `MakeHTTPHandlerFunc`: the uniform adapter — a
handler failure becomes a 400 with the marshalled `APIError` (message and
zero `code` field); a handler success is passed through untouched. -/
def makeHTTPHandlerFunc (apiFunc : Store → Request → Store × Except String Response)
    (st : Store) (r : Request) : Store × Response :=
  match apiFunc st r with
  | (st', .ok resp) => (st', resp)
  | (st', .error e) => (st', writeJSON 400 (APIError.toJson { Error := e, Code := 0 }))

/-- `withJWTAuth` of part_001: read the x-jwt-token header, validate it,
and on failure answer 403 with the marshalled invalid-token `APIError`
without invoking the downstream handler; on success invoke the downstream
handler on the unmodified request. -/
def withJWTAuth (handlerFunc : Store → Request → Store × Response) (secret : String)
    (st : Store) (r : Request) : Store × Response :=
  match validateJWT secret r.xJwtToken with
  | .error _ => (st, writeJSON 403 (APIError.toJson { Error := "invalid token", Code := 0 }))
  | .ok _ => handlerFunc st r

/-- The `/account/{id}` route as wired in `Run`: the auth middleware around
the adapted by-id handler. -/
def accountByIDRoute (secret : String) (st : Store) (r : Request) : Store × Response :=
  withJWTAuth (makeHTTPHandlerFunc handleAccountByID) secret st r

/-! ## Claims -/

/-- Claim C1: for every create-account request whose body decodes as a
first-name/last-name JSON object, the POST /account handler answers 201
with a JSON account object whose first_name and last_name equal the
request's fields and whose balance is zero (the storage insert
succeeding). -/
theorem handleCreateAccount_created (st : Store) (seed now : Nat) (secret : String)
    (r : Request) (req : CreateAccountRequest)
    (hdec : decodeCreateAccountRequest r.Body = .ok req) :
    ∃ body : Json,
      (handleCreateAccount seed now secret none st r).2
        = .ok { status := 201, body := body } ∧
      body.field "first_name" = some (.str req.FirstName) ∧
      body.field "last_name" = some (.str req.LastName) ∧
      body.field "balance" = some (.num 0) := by
  refine ⟨(NewAccount req.FirstName req.LastName seed now).toJson, ?_, ?_, ?_, ?_⟩
  · simp [handleCreateAccount, hdec, PostgresStore.CreateAccount, createJWT, writeJSON]
  · simp [Account.toJson, Json.field, jsonLookup, NewAccount]
  · simp [Account.toJson, Json.field, jsonLookup, NewAccount]
  · simp [Account.toJson, Json.field, jsonLookup, NewAccount]

/-- Claim C1 witness at a concrete request. -/
theorem handleCreateAccount_created_witness :
    ∃ body : Json,
      (handleCreateAccount 3 5 "s" none { rows := [], nextId := 1 }
        { Method := "POST", vars := [],
          Body := .obj [("first_name", .str "Jane"), ("last_name", .str "Doe")],
          xJwtToken := .malformed }).2
        = .ok { status := 201, body := body } ∧
      body.field "first_name" = some (.str "Jane") ∧
      body.field "last_name" = some (.str "Doe") ∧
      body.field "balance" = some (.num 0) :=
  handleCreateAccount_created { rows := [], nextId := 1 } 3 5 "s"
    { Method := "POST", vars := [],
      Body := .obj [("first_name", .str "Jane"), ("last_name", .str "Doe")],
      xJwtToken := .malformed }
    { FirstName := "Jane", LastName := "Doe" } (by rfl)

/-- Claim C2: for every transfer request whose body decodes as a
TransferRequest, the POST /transfer handler answers 200 with the decoded
request echoed back, and no stored account's balance changes. -/
theorem handleTransfer_echo (st : Store) (r : Request) (t : TransferRequest)
    (hdec : decodeTransferRequest r.Body = .ok t) :
    handleTransfer st r = (st, .ok { status := 200, body := t.toJson }) ∧
    (handleTransfer st r).1.rows.map Account.Balance = st.rows.map Account.Balance := by
  refine ⟨?_, ?_⟩ <;> simp [handleTransfer, hdec, writeJSON]

/-- Claim C2 witness at the concrete transfer body of the spec. -/
theorem handleTransfer_echo_witness :
    handleTransfer { rows := [], nextId := 1 }
        { Method := "POST", vars := [],
          Body := .obj [("to_account", .num 5), ("amount", .num 100)],
          xJwtToken := .malformed }
      = ({ rows := [], nextId := 1 },
         .ok { status := 200, body := TransferRequest.toJson { ToAccount := 5, Amount := 100 } }) ∧
    (handleTransfer { rows := [], nextId := 1 }
        { Method := "POST", vars := [],
          Body := .obj [("to_account", .num 5), ("amount", .num 100)],
          xJwtToken := .malformed }).1.rows.map Account.Balance
      = ({ rows := [], nextId := 1 } : Store).rows.map Account.Balance :=
  handleTransfer_echo { rows := [], nextId := 1 }
    { Method := "POST", vars := [],
      Body := .obj [("to_account", .num 5), ("amount", .num 100)],
      xJwtToken := .malformed }
    { ToAccount := 5, Amount := 100 } (by rfl)

/-- Claim C6: the token issued at account creation carries exactly the
account's number and the fixed expiry instant 1516239022, for every
account and secret — `createJWT` takes no time input at all, so the expiry
is independent of the time of issuance. -/
theorem createJWT_fixed_expiry (secret : String) (account : Account) :
    createJWT secret account
      = .ok (.signed "HS256"
          { expiresAt := 1516239022, accountNumber := account.Number } secret) := rfl

/-- Claim C7: when the full-table read succeeds, GET /account answers 200
with a JSON array holding one encoded account per persisted row — the
empty array, never null, when there are no rows — and the store is
unchanged. -/
theorem handleGetAccounts_list (st : Store) (r : Request) :
    handleGetAccounts none st r
      = (st, .ok { status := 200, body := Json.arr (st.rows.map Account.toJson) }) ∧
    (st.rows.map Account.toJson).length = st.rows.length ∧
    Json.arr (st.rows.map Account.toJson) ≠ Json.null := by
  refine ⟨rfl, by simp, ?_⟩
  intro h
  exact Json.noConfusion h

/-- Claim C3: the by-id storage operations are silent no-ops — GetAccountByID
returns nil account and nil error, DeleteAccount and UpdateAccount return
nil — so, behind a verifying token and a numeric id, GET /account/id
answers 200 with a null body and DELETE /account/id answers 200 with the
success message, whatever the store holds. -/
theorem accountByID_noop (st : Store) (secret : String) (r : Request)
    (n m : Int) (a : Account)
    (hv : exceptIsOk (validateJWT secret r.xJwtToken) = true)
    (hid : atoi (varsGet r "id") = some n) :
    PostgresStore.GetAccountByID st m = (st, (none, none)) ∧
    PostgresStore.UpdateAccount st a = (st, none) ∧
    PostgresStore.DeleteAccount st m = (st, none) ∧
    (r.Method = "GET" →
      accountByIDRoute secret st r = (st, { status := 200, body := Json.null })) ∧
    (r.Method = "DELETE" →
      accountByIDRoute secret st r
        = (st, { status := 200, body := Json.str "successfully deleted account" })) := by
  cases hvt : validateJWT secret r.xJwtToken with
  | error e => simp [exceptIsOk, hvt] at hv
  | ok tok =>
    refine ⟨rfl, rfl, rfl, ?_, ?_⟩ <;> intro hm <;>
      simp [accountByIDRoute, withJWTAuth, hvt, makeHTTPHandlerFunc, handleAccountByID,
            hm, handleGetAccountByID, handleDeleteAccountByID, getID, hid,
            PostgresStore.GetAccountByID, PostgresStore.DeleteAccount, writeJSON]

/-- Claim C3 witness: a verifying token and the id segment 7, exercising
both the GET and the DELETE pipeline. -/
theorem accountByID_noop_witness :
    (PostgresStore.GetAccountByID { rows := [], nextId := 1 } 7
        = ({ rows := [], nextId := 1 }, (none, none)) ∧
      PostgresStore.UpdateAccount { rows := [], nextId := 1 }
          { ID := 0, FirstName := "", LastName := "", Number := 0, Balance := 0, CreatedAt := 0 }
        = ({ rows := [], nextId := 1 }, none) ∧
      PostgresStore.DeleteAccount { rows := [], nextId := 1 } 7
        = ({ rows := [], nextId := 1 }, none) ∧
      (({ Method := "GET", vars := [("id", "7")], Body := Json.null,
          xJwtToken := .signed "HS256" { expiresAt := 1516239022, accountNumber := 42 } "s" } :
            Request).Method = "GET" →
        accountByIDRoute "s" { rows := [], nextId := 1 }
            { Method := "GET", vars := [("id", "7")], Body := Json.null,
              xJwtToken := .signed "HS256" { expiresAt := 1516239022, accountNumber := 42 } "s" }
          = ({ rows := [], nextId := 1 }, { status := 200, body := Json.null })) ∧
      (({ Method := "GET", vars := [("id", "7")], Body := Json.null,
          xJwtToken := .signed "HS256" { expiresAt := 1516239022, accountNumber := 42 } "s" } :
            Request).Method = "DELETE" →
        accountByIDRoute "s" { rows := [], nextId := 1 }
            { Method := "GET", vars := [("id", "7")], Body := Json.null,
              xJwtToken := .signed "HS256" { expiresAt := 1516239022, accountNumber := 42 } "s" }
          = ({ rows := [], nextId := 1 },
             { status := 200, body := Json.str "successfully deleted account" }))) ∧
    (({ Method := "DELETE", vars := [("id", "7")], Body := Json.null,
        xJwtToken := .signed "HS256" { expiresAt := 1516239022, accountNumber := 42 } "s" } :
          Request).Method = "DELETE" →
      accountByIDRoute "s" { rows := [], nextId := 1 }
          { Method := "DELETE", vars := [("id", "7")], Body := Json.null,
            xJwtToken := .signed "HS256" { expiresAt := 1516239022, accountNumber := 42 } "s" }
        = ({ rows := [], nextId := 1 },
           { status := 200, body := Json.str "successfully deleted account" })) :=
  ⟨accountByID_noop { rows := [], nextId := 1 } "s"
      { Method := "GET", vars := [("id", "7")], Body := Json.null,
        xJwtToken := .signed "HS256" { expiresAt := 1516239022, accountNumber := 42 } "s" }
      7 7
      { ID := 0, FirstName := "", LastName := "", Number := 0, Balance := 0, CreatedAt := 0 }
      (by rfl) (by rfl),
   (accountByID_noop { rows := [], nextId := 1 } "s"
      { Method := "DELETE", vars := [("id", "7")], Body := Json.null,
        xJwtToken := .signed "HS256" { expiresAt := 1516239022, accountNumber := 42 } "s" }
      7 7
      { ID := 0, FirstName := "", LastName := "", Number := 0, Balance := 0, CreatedAt := 0 }
      (by rfl) (by rfl)).2.2.2.2⟩

/-- Claim C4 counterexample: at a concrete request with an unparseable
token, the middleware does answer 403, but the written body is the full
marshalled APIError — it carries the zero code field as well — so it is
not the two-field-free object the claim states. -/
theorem withJWTAuth_body_counterexample :
    (withJWTAuth (fun st _ => (st, { status := 200, body := Json.null })) "s"
        { rows := [], nextId := 1 }
        { Method := "GET", vars := [("id", "7")], Body := Json.null,
          xJwtToken := .malformed }).2.status = 403 ∧
    (withJWTAuth (fun st _ => (st, { status := 200, body := Json.null })) "s"
        { rows := [], nextId := 1 }
        { Method := "GET", vars := [("id", "7")], Body := Json.null,
          xJwtToken := .malformed }).2.body
      = Json.obj [("error", Json.str "invalid token"), ("code", Json.num 0)] ∧
    (withJWTAuth (fun st _ => (st, { status := 200, body := Json.null })) "s"
        { rows := [], nextId := 1 }
        { Method := "GET", vars := [("id", "7")], Body := Json.null,
          xJwtToken := .malformed }).2.body
      ≠ Json.obj [("error", Json.str "invalid token")] := by
  refine ⟨rfl, rfl, ?_⟩
  intro h
  simp [withJWTAuth, validateJWT, writeJSON, APIError.toJson] at h

/-- Claim C4 (amended): when the token header does not verify under the
shared secret, the middleware answers 403 with the marshalled APIError
body — error message invalid token and the zero code field — for every
downstream handler, which is therefore not invoked; when the token
verifies, the downstream handler is invoked on the unmodified request and
store. -/
theorem withJWTAuth_gate (h : Store → Request → Store × Response) (secret : String)
    (st : Store) (r : Request) :
    (exceptIsOk (validateJWT secret r.xJwtToken) = false →
      withJWTAuth h secret st r
        = (st, { status := 403,
                 body := Json.obj [("error", Json.str "invalid token"), ("code", Json.num 0)] })) ∧
    (exceptIsOk (validateJWT secret r.xJwtToken) = true →
      withJWTAuth h secret st r = h st r) := by
  cases hvt : validateJWT secret r.xJwtToken <;>
    simp [exceptIsOk, hvt, withJWTAuth, writeJSON, APIError.toJson]

/-- Claim C4 witness: the rejecting branch at a malformed token and the
passing branch at a verifying token, for a concrete downstream handler. -/
theorem withJWTAuth_gate_witness :
    withJWTAuth (fun st _ => (st, { status := 200, body := Json.null })) "s"
        { rows := [], nextId := 1 }
        { Method := "GET", vars := [], Body := Json.null, xJwtToken := .malformed }
      = ({ rows := [], nextId := 1 },
         { status := 403,
           body := Json.obj [("error", Json.str "invalid token"), ("code", Json.num 0)] }) ∧
    withJWTAuth (fun st _ => (st, { status := 200, body := Json.null })) "s"
        { rows := [], nextId := 1 }
        { Method := "GET", vars := [], Body := Json.null,
          xJwtToken := .signed "HS256" { expiresAt := 1516239022, accountNumber := 42 } "s" }
      = ({ rows := [], nextId := 1 }, { status := 200, body := Json.null }) :=
  ⟨(withJWTAuth_gate (fun st _ => (st, { status := 200, body := Json.null })) "s"
      { rows := [], nextId := 1 }
      { Method := "GET", vars := [], Body := Json.null, xJwtToken := .malformed }).1 (by rfl),
   (withJWTAuth_gate (fun st _ => (st, { status := 200, body := Json.null })) "s"
      { rows := [], nextId := 1 }
      { Method := "GET", vars := [], Body := Json.null,
        xJwtToken := .signed "HS256" { expiresAt := 1516239022, accountNumber := 42 } "s" }).2
      (by rfl)⟩

/-- Claim C5 counterexample: for a wrapped handler failing with the message
boom, the adapter does answer 400, but the written body is the full
marshalled APIError — it carries the zero code field as well — so it is
not the single-field object the claim states. -/
theorem makeHTTPHandlerFunc_body_counterexample :
    (makeHTTPHandlerFunc (fun st _ => (st, .error "boom")) { rows := [], nextId := 1 }
        { Method := "POST", vars := [], Body := Json.null,
          xJwtToken := .malformed }).2.status = 400 ∧
    (makeHTTPHandlerFunc (fun st _ => (st, .error "boom")) { rows := [], nextId := 1 }
        { Method := "POST", vars := [], Body := Json.null,
          xJwtToken := .malformed }).2.body
      = Json.obj [("error", Json.str "boom"), ("code", Json.num 0)] ∧
    (makeHTTPHandlerFunc (fun st _ => (st, .error "boom")) { rows := [], nextId := 1 }
        { Method := "POST", vars := [], Body := Json.null,
          xJwtToken := .malformed }).2.body
      ≠ Json.obj [("error", Json.str "boom")] := by
  refine ⟨rfl, rfl, ?_⟩
  intro h
  simp [makeHTTPHandlerFunc, writeJSON, APIError.toJson] at h

/-- Claim C5 (amended): whenever a wrapped handler fails, the adapter
writes a 400 whose body is the marshalled APIError — the error message and
the zero code field; whenever the handler succeeds, the adapter passes the
handler's own response and store through untouched. -/
theorem makeHTTPHandlerFunc_adapter
    (apiFunc : Store → Request → Store × Except String Response)
    (st st' : Store) (r : Request) (e : String) (resp : Response) :
    (apiFunc st r = (st', .error e) →
      makeHTTPHandlerFunc apiFunc st r
        = (st', { status := 400,
                  body := Json.obj [("error", Json.str e), ("code", Json.num 0)] })) ∧
    (apiFunc st r = (st', .ok resp) →
      makeHTTPHandlerFunc apiFunc st r = (st', resp)) := by
  refine ⟨?_, ?_⟩ <;> intro h <;>
    simp [makeHTTPHandlerFunc, h, writeJSON, APIError.toJson]

/-- Claim C5 witness: the failing branch and the succeeding branch of the
adapter, each at a concrete wrapped handler. -/
theorem makeHTTPHandlerFunc_adapter_witness :
    makeHTTPHandlerFunc (fun st _ => (st, .error "boom")) { rows := [], nextId := 1 }
        { Method := "POST", vars := [], Body := Json.null, xJwtToken := .malformed }
      = ({ rows := [], nextId := 1 },
         { status := 400,
           body := Json.obj [("error", Json.str "boom"), ("code", Json.num 0)] }) ∧
    makeHTTPHandlerFunc (fun st _ => (st, .ok { status := 200, body := Json.null }))
        { rows := [], nextId := 1 }
        { Method := "POST", vars := [], Body := Json.null, xJwtToken := .malformed }
      = ({ rows := [], nextId := 1 }, { status := 200, body := Json.null }) :=
  ⟨(makeHTTPHandlerFunc_adapter (fun st _ => (st, .error "boom"))
      { rows := [], nextId := 1 } { rows := [], nextId := 1 }
      { Method := "POST", vars := [], Body := Json.null, xJwtToken := .malformed }
      "boom" { status := 200, body := Json.null }).1 (by rfl),
   (makeHTTPHandlerFunc_adapter (fun st _ => (st, .ok { status := 200, body := Json.null }))
      { rows := [], nextId := 1 } { rows := [], nextId := 1 }
      { Method := "POST", vars := [], Body := Json.null, xJwtToken := .malformed }
      "boom" { status := 200, body := Json.null }).2 (by rfl)⟩

/-- Claim C8: the storage CreateAccount inserts exactly one row carrying
every field of the account except its identity (the row's identity is the
database-assigned serial), the in-memory account value is untouched —
the handler serialises it with its construction-time zero identity — and
any insertion error is returned to the caller; hence the 201 response
reports id 0. -/
theorem CreateAccount_inserts (st : Store) (a : Account) (e : String)
    (seed now : Nat) (secret : String) (r : Request) (req : CreateAccountRequest)
    (hdec : decodeCreateAccountRequest r.Body = .ok req) :
    PostgresStore.CreateAccount st a none
      = ({ rows := st.rows ++ [{ a with ID := st.nextId }], nextId := st.nextId + 1 },
         .ok ()) ∧
    PostgresStore.CreateAccount st a (some e) = (st, .error e) ∧
    (handleCreateAccount seed now secret (some e) st r).2 = .error e ∧
    ∃ body : Json,
      (handleCreateAccount seed now secret none st r).2
        = .ok { status := 201, body := body } ∧
      body.field "id" = some (.num 0) := by
  refine ⟨rfl, rfl, ?_, (NewAccount req.FirstName req.LastName seed now).toJson, ?_, ?_⟩
  · simp [handleCreateAccount, hdec, PostgresStore.CreateAccount]
  · simp [handleCreateAccount, hdec, PostgresStore.CreateAccount, createJWT, writeJSON]
  · simp [Account.toJson, Json.field, jsonLookup, NewAccount]

/-- Claim C8 witness at a concrete account, error message and request. -/
theorem CreateAccount_inserts_witness :
    PostgresStore.CreateAccount { rows := [], nextId := 1 }
        { ID := 0, FirstName := "Jane", LastName := "Doe", Number := 3, Balance := 0,
          CreatedAt := 5 } none
      = ({ rows := [{ ID := 1, FirstName := "Jane", LastName := "Doe", Number := 3,
                      Balance := 0, CreatedAt := 5 }], nextId := 2 }, .ok ()) ∧
    PostgresStore.CreateAccount { rows := [], nextId := 1 }
        { ID := 0, FirstName := "Jane", LastName := "Doe", Number := 3, Balance := 0,
          CreatedAt := 5 } (some "db down")
      = ({ rows := [], nextId := 1 }, .error "db down") ∧
    (handleCreateAccount 3 5 "s" (some "db down") { rows := [], nextId := 1 }
        { Method := "POST", vars := [],
          Body := .obj [("first_name", .str "Jane"), ("last_name", .str "Doe")],
          xJwtToken := .malformed }).2 = .error "db down" ∧
    ∃ body : Json,
      (handleCreateAccount 3 5 "s" none { rows := [], nextId := 1 }
          { Method := "POST", vars := [],
            Body := .obj [("first_name", .str "Jane"), ("last_name", .str "Doe")],
            xJwtToken := .malformed }).2
        = .ok { status := 201, body := body } ∧
      body.field "id" = some (.num 0) :=
  CreateAccount_inserts { rows := [], nextId := 1 }
    { ID := 0, FirstName := "Jane", LastName := "Doe", Number := 3, Balance := 0,
      CreatedAt := 5 }
    "db down" 3 5 "s"
    { Method := "POST", vars := [],
      Body := .obj [("first_name", .str "Jane"), ("last_name", .str "Doe")],
      xJwtToken := .malformed }
    { FirstName := "Jane", LastName := "Doe" } (by rfl)

/-- Claim C9: every account built by NewAccount has the zero identity and
an account number in the half-open range zero to one million, and no
storage operation changes the number of any stored account — the only one
that changes the rows is CreateAccount, which appends a row whose number is
the constructed account's own. -/
theorem NewAccount_number_range (fn ln : String) (seed now : Nat)
    (st : Store) (a : Account) (e : String) (m : Int) :
    (NewAccount fn ln seed now).ID = 0 ∧
    0 ≤ (NewAccount fn ln seed now).Number ∧
    (NewAccount fn ln seed now).Number < 1000000 ∧
    (PostgresStore.CreateAccount st a none).1.rows.map Account.Number
      = st.rows.map Account.Number ++ [a.Number] ∧
    (PostgresStore.CreateAccount st a (some e)).1 = st ∧
    (PostgresStore.GetAccountByID st m).1 = st ∧
    (PostgresStore.UpdateAccount st a).1 = st ∧
    (PostgresStore.DeleteAccount st m).1 = st ∧
    (PostgresStore.GetAccounts st none).1 = st := by
  refine ⟨rfl, ?_, ?_, ?_, rfl, rfl, rfl, rfl, rfl⟩
  · show (0 : Int) ≤ ((randIntn seed 1000000 : Nat) : Int)
    exact_mod_cast Nat.zero_le _
  · show ((randIntn seed 1000000 : Nat) : Int) < 1000000
    have h : randIntn seed 1000000 < 1000000 := Nat.mod_lt _ (by omega)
    exact_mod_cast h
  · simp [PostgresStore.CreateAccount]

/-- Claim C10 counterexample: behind a verifying token, the id segment abc
does produce a 400 invalid-id response, but its body is the full marshalled
APIError — it carries the zero code field as well — so it is not the
single-field object the claim states. -/
theorem getID_invalid_body_counterexample :
    (accountByIDRoute "s" { rows := [], nextId := 1 }
        { Method := "GET", vars := [("id", "abc")], Body := Json.null,
          xJwtToken := .signed "HS256" { expiresAt := 1516239022, accountNumber := 42 } "s" }).2.status
      = 400 ∧
    (accountByIDRoute "s" { rows := [], nextId := 1 }
        { Method := "GET", vars := [("id", "abc")], Body := Json.null,
          xJwtToken := .signed "HS256" { expiresAt := 1516239022, accountNumber := 42 } "s" }).2.body
      = Json.obj [("error", Json.str "invalid id given abc"), ("code", Json.num 0)] ∧
    (accountByIDRoute "s" { rows := [], nextId := 1 }
        { Method := "GET", vars := [("id", "abc")], Body := Json.null,
          xJwtToken := .signed "HS256" { expiresAt := 1516239022, accountNumber := 42 } "s" }).2.body
      ≠ Json.obj [("error", Json.str "invalid id given abc")] := by
  refine ⟨rfl, rfl, ?_⟩
  intro h
  simp [accountByIDRoute, withJWTAuth, validateJWT, isHMAC, makeHTTPHandlerFunc,
        handleAccountByID, handleGetAccountByID, getID, varsGet, atoi, atoiDigits,
        writeJSON, APIError.toJson] at h

/-- Claim C10 (amended): behind a verifying token, a GET or DELETE on
/account/id whose id segment is not a decimal integer makes getID return
the invalid-id error, the store is untouched (no storage call is reached),
and the response is a 400 whose body is the marshalled APIError — the
invalid-id message and the zero code field. -/
theorem getID_invalid (secret : String) (st : Store) (r : Request)
    (hv : exceptIsOk (validateJWT secret r.xJwtToken) = true)
    (hbad : atoi (varsGet r "id") = none)
    (hm : r.Method = "GET" ∨ r.Method = "DELETE") :
    getID r = .error ("invalid id given " ++ varsGet r "id") ∧
    accountByIDRoute secret st r
      = (st, { status := 400,
               body := Json.obj [("error", Json.str ("invalid id given " ++ varsGet r "id")),
                                 ("code", Json.num 0)] }) := by
  cases hvt : validateJWT secret r.xJwtToken with
  | error e => simp [exceptIsOk, hvt] at hv
  | ok tok =>
    refine ⟨by simp [getID, hbad], ?_⟩
    cases hm with
    | inl hg =>
      simp [accountByIDRoute, withJWTAuth, hvt, makeHTTPHandlerFunc, handleAccountByID,
            hg, handleGetAccountByID, getID, hbad, writeJSON, APIError.toJson]
    | inr hd =>
      simp [accountByIDRoute, withJWTAuth, hvt, makeHTTPHandlerFunc, handleAccountByID,
            hd, handleDeleteAccountByID, getID, hbad, writeJSON, APIError.toJson]

/-- Claim C10 witness: a verifying token and the non-numeric id segment
abc. -/
theorem getID_invalid_witness :
    getID
        { Method := "GET", vars := [("id", "abc")], Body := Json.null,
          xJwtToken := .signed "HS256" { expiresAt := 1516239022, accountNumber := 42 } "s" }
      = .error ("invalid id given " ++ "abc") ∧
    accountByIDRoute "s" { rows := [], nextId := 1 }
        { Method := "GET", vars := [("id", "abc")], Body := Json.null,
          xJwtToken := .signed "HS256" { expiresAt := 1516239022, accountNumber := 42 } "s" }
      = ({ rows := [], nextId := 1 },
         { status := 400,
           body := Json.obj [("error", Json.str ("invalid id given " ++ "abc")),
                             ("code", Json.num 0)] }) :=
  getID_invalid "s" { rows := [], nextId := 1 }
    { Method := "GET", vars := [("id", "abc")], Body := Json.null,
      xJwtToken := .signed "HS256" { expiresAt := 1516239022, accountNumber := 42 } "s" }
    (by rfl) (by rfl) (Or.inl rfl)

end GoBank
